import Mathlib

/-!
Verification of the report-pipeline builder of `src/report.cc`
(`ledger::report_t`), against its natural-language specification.

The central function is `report_t::chain_xact_handlers`: starting from a
caller-supplied base handler (the sink), every
`handler.reset(new X(handler, ...))` wraps the current chain in a new
stage `X` whose downstream successor is the previous `handler`.  The
walker (`pass_down_xacts`) pushes each item into the handler *returned*
by `chain_xact_handlers`, i.e. into the last stage constructed.  Hence
items flow through the stages in the REVERSE of construction order: the
last-constructed stage is nearest the source, the first-constructed
stage is nearest the sink (the base handler).  The code comments confirm
this convention: `truncate_entries` is constructed first and "does not
affect calculation" precisely because every other stage (including the
running-total stage) processes an item before truncation does.

We embed the chain as a `List Stage` in flow order, source to sink: the
head of the list is the stage that receives items from the walker first;
the base handler is the implicit sink following the last element.
`handler.reset(new X(handler))` is therefore translated as prepending
`X` to the list.  Each `handler.reset` site of the source is one
`addX` function below, applied in the source's order by
`chain_xact_handlers`.

C++ `std::string` option values are embedded as `List Char`;
`std::string::empty()` is `List.isEmpty`; the `descend_expr` splitting
loop (find-`';'`/substr) is `splitSemi`.  `datetime_t` values are
embedded as `Nat`; the external `parse_datetime` function and the
ambient `current_moment` are passed to the builder as explicit
parameters.
-/

namespace Report

set_option maxRecDepth 40000

/-- The stage kinds inserted by `report_t::chain_xact_handlers`
(`src/report.cc` lines 47-208), one constructor per C++ handler class,
carrying the constructor arguments that the builder passes (besides the
downstream handler itself, which is the chain structure). -/
inductive Stage where
  | truncate_entries (head_count tail_count : Int)
  | filter_xacts (pred : List Char)
  | calc_xacts
  | component_xacts (expr : List Char)
  | reconcile_xacts (balance : List Char) (cutoff : Nat)
  | sort_entries (sort_order : List Char)
  | sort_xacts (sort_order : List Char)
  | changed_value_xacts (changed_values_only : Bool)
  | collapse_xacts
  | subtotal_xacts (remember_components : Bool)
  | dow_xacts (remember_components : Bool)
  | by_payee_xacts (remember_components : Bool)
  | interval_xacts (interval : List Char) (remember_components : Bool)
  | invert_xacts
  | related_xacts (also_matching : Bool)
  | set_comm_as_payee
  | set_code_as_payee
deriving DecidableEq, Repr

/-- The fields of `report_t` read by `chain_xact_handlers` (the report
configuration).  C++ strings are `List Char`; the `head_entries` /
`tail_entries` counts are `Int` (C++ integer truthiness `x` is `x != 0`). -/
structure Config where
  head_entries : Int
  tail_entries : Int
  display_predicate : List Char
  descend_expr : List Char
  reconcile_balance : List Char
  reconcile_date : List Char
  secondary_predicate : List Char
  sort_string : List Char
  entry_sort : Bool
  show_revalued : Bool
  show_revalued_only : Bool
  show_collapsed : Bool
  show_subtotal : Bool
  days_of_the_week : Bool
  by_payee : Bool
  report_period : List Char
  show_inverted : Bool
  show_related : Bool
  show_all_related : Bool
  predicate : List Char
  comm_as_payee : Bool
  code_as_payee : Bool
deriving DecidableEq, Repr

/-- Accumulator for `splitSemi`: `acc` holds the characters of the
current segment in reverse (the portion between the previous `';'`, or
the start of the string, and the current read position). -/
def splitSemiAux : List Char → List Char → List (List Char)
  | [], acc => [acc.reverse]
  | c :: rest, acc =>
      if c = ';' then acc.reverse :: splitSemiAux rest []
      else splitSemiAux rest (c :: acc)

/-- The `descend_expr` splitting loop of `src/report.cc` lines 70-75:
repeated `find(';')`/`substr` producing the `';'`-separated segments,
including empty segments (a trailing `';'` yields a final empty
segment, because the code pushes `substr(beg)` after the loop). -/
def splitSemi (s : List Char) : List (List Char) :=
  splitSemiAux s []

/-! ### The insertion sites of `chain_xact_handlers`

One function per `handler.reset(new X(handler, ...))` site of
`src/report.cc`, each guarded exactly as in the source and prepending
the new stage (= wrapping the chain, see the module comment). -/

/-- Lines 50-51: `truncate_entries`, if a head or tail count is set. -/
def addTrunc (r : Config) (handler : List Stage) : List Stage :=
  if r.head_entries != 0 || r.tail_entries != 0 then
    Stage.truncate_entries r.head_entries r.tail_entries :: handler
  else handler

/-- Lines 55-56: `filter_xacts` on the `display_predicate`, if set. -/
def addDisplayFilter (r : Config) (handler : List Stage) : List Stage :=
  if !r.display_predicate.isEmpty then
    Stage.filter_xacts r.display_predicate :: handler
  else handler

/-- Lines 67-84: the `component_xacts` stages, one per `';'`-separated
descend expression, wrapped iterating the split list in reverse
(`rbegin`..`rend`), so that in flow order they appear in written order. -/
def addComponents (r : Config) (handler : List Stage) : List Stage :=
  if !r.descend_expr.isEmpty then
    (splitSemi r.descend_expr).reverse.foldl
      (fun acc expr => Stage.component_xacts expr :: acc) handler
  else handler

/-- Lines 89-95: `reconcile_xacts`; the cutoff is initialized to the
ambient `current_moment` and overridden by `parse_datetime` of
`reconcile_date` when that string is non-empty. -/
def addReconcile (pdt : List Char → Nat) (current_moment : Nat)
    (r : Config) (handler : List Stage) : List Stage :=
  if !r.reconcile_balance.isEmpty then
    let cutoff :=
      if !r.reconcile_date.isEmpty then pdt r.reconcile_date
      else current_moment
    Stage.reconcile_xacts r.reconcile_balance cutoff :: handler
  else handler

/-- Lines 99-100: `filter_xacts` on the `secondary_predicate`, if set. -/
def addSecondaryFilter (r : Config) (handler : List Stage) : List Stage :=
  if !r.secondary_predicate.isEmpty then
    Stage.filter_xacts r.secondary_predicate :: handler
  else handler

/-- Lines 104-109: `sort_entries` or `sort_xacts` on the sort
expression, if set. -/
def addSort (r : Config) (handler : List Stage) : List Stage :=
  if !r.sort_string.isEmpty then
    (if r.entry_sort then Stage.sort_entries r.sort_string
     else Stage.sort_xacts r.sort_string) :: handler
  else handler

/-- Lines 114-115: `changed_value_xacts`, if `show_revalued`. -/
def addRevalue (r : Config) (handler : List Stage) : List Stage :=
  if r.show_revalued then
    Stage.changed_value_xacts r.show_revalued_only :: handler
  else handler

/-- Lines 120-121: `collapse_xacts`, if `show_collapsed`. -/
def addCollapse (r : Config) (handler : List Stage) : List Stage :=
  if r.show_collapsed then Stage.collapse_xacts :: handler else handler

/-- Lines 134-135: `subtotal_xacts`, if `show_subtotal` — an
independent `if`, not chained to the day-of-week / by-payee choice.
`remember_components` is true iff the `descend_expr` block ran
(line 41 initializes it false, line 83 sets it true). -/
def addSubtotal (r : Config) (handler : List Stage) : List Stage :=
  if r.show_subtotal then
    Stage.subtotal_xacts (!r.descend_expr.isEmpty) :: handler
  else handler

/-- Lines 137-140: `dow_xacts`, `else if` `by_payee_xacts`. -/
def addDowPayee (r : Config) (handler : List Stage) : List Stage :=
  if r.days_of_the_week then
    Stage.dow_xacts (!r.descend_expr.isEmpty) :: handler
  else
    if r.by_payee then
      Stage.by_payee_xacts (!r.descend_expr.isEmpty) :: handler
    else handler

/-- Lines 144-148: `interval_xacts` and then a forced date sort
(`sort_xacts` on "d") wrapped around it; the sort is constructed last,
so in flow order it is immediately upstream of the interval stage. -/
def addInterval (r : Config) (handler : List Stage) : List Stage :=
  if !r.report_period.isEmpty then
    Stage.sort_xacts ['d'] ::
      Stage.interval_xacts r.report_period (!r.descend_expr.isEmpty) :: handler
  else handler

/-- Lines 153-154: `invert_xacts` (outside the individual block). -/
def addInvert (r : Config) (handler : List Stage) : List Stage :=
  if r.show_inverted then Stage.invert_xacts :: handler else handler

/-- Lines 161-162: `related_xacts` (outside the individual block). -/
def addRelated (r : Config) (handler : List Stage) : List Stage :=
  if r.show_related then
    Stage.related_xacts r.show_all_related :: handler
  else handler

/-- Lines 166-167: `filter_xacts` on the general `predicate`
(outside the individual block). -/
def addPredicateFilter (r : Config) (handler : List Stage) : List Stage :=
  if !r.predicate.isEmpty then
    Stage.filter_xacts r.predicate :: handler
  else handler

/-- Lines 204-207: `set_comm_as_payee`, `else if` `set_code_as_payee`
(outside the individual block). -/
def addPayeeSubst (r : Config) (handler : List Stage) : List Stage :=
  if r.comm_as_payee then Stage.set_comm_as_payee :: handler
  else
    if r.code_as_payee then Stage.set_code_as_payee :: handler
    else handler

/-- `report_t::chain_xact_handlers` (`src/report.cc` lines 37-210).

The result is the chain in flow order, source to sink (see the module
comment): the head of the returned list is the stage that receives each
item from the walker first, and the base handler is the implicit sink
at the end.  `pdt` is the external `parse_datetime`, `current_moment`
the ambient current datetime (line 90), `handle_individual_xacts` the
individual-mode flag. -/
def chain_xact_handlers (pdt : List Char → Nat) (current_moment : Nat)
    (r : Config) (handle_individual_xacts : Bool) : List Stage :=
  let handler : List Stage := []
  let handler :=
    if handle_individual_xacts then
      let handler := addTrunc r handler
      let handler := addDisplayFilter r handler
      -- calc_xacts computes the running total (lines 58-61);
      -- unconditional in individual mode.
      let handler := Stage.calc_xacts :: handler
      let handler := addComponents r handler
      let handler := addReconcile pdt current_moment r handler
      let handler := addSecondaryFilter r handler
      let handler := addSort r handler
      let handler := addRevalue r handler
      let handler := addCollapse r handler
      let handler := addSubtotal r handler
      let handler := addDowPayee r handler
      let handler := addInterval r handler
      handler
    else handler
  let handler := addInvert r handler
  let handler := addRelated r handler
  let handler := addPredicateFilter r handler
  let handler := addPayeeSubst r handler
  handler

/-! ### Segment view of the chain

Each insertion site contributes a segment (the stages it prepends); the
whole chain is the concatenation of the segments in reverse
construction order, i.e. flow order.  `XSeg r = addX r []`, and
`addX r h = XSeg r ++ h` (lemmas below). -/

/-- The truncate segment (lines 50-51). -/
def truncSeg (r : Config) : List Stage :=
  if r.head_entries != 0 || r.tail_entries != 0 then
    [Stage.truncate_entries r.head_entries r.tail_entries]
  else []

/-- The primary display filter segment (lines 55-56). -/
def dispSeg (r : Config) : List Stage :=
  if !r.display_predicate.isEmpty then
    [Stage.filter_xacts r.display_predicate]
  else []

/-- The component-decomposition segment (lines 67-84), in flow order =
written order of the `';'`-separated descend expressions. -/
def compSeg (r : Config) : List Stage :=
  if !r.descend_expr.isEmpty then
    (splitSemi r.descend_expr).map Stage.component_xacts
  else []

/-- The reconcile segment (lines 89-95). -/
def reconcileSeg (pdt : List Char → Nat) (current_moment : Nat)
    (r : Config) : List Stage :=
  if !r.reconcile_balance.isEmpty then
    [Stage.reconcile_xacts r.reconcile_balance
      (if !r.reconcile_date.isEmpty then pdt r.reconcile_date
       else current_moment)]
  else []

/-- The secondary filter segment (lines 99-100). -/
def secondarySeg (r : Config) : List Stage :=
  if !r.secondary_predicate.isEmpty then
    [Stage.filter_xacts r.secondary_predicate]
  else []

/-- The sort segment (lines 104-109). -/
def sortSeg (r : Config) : List Stage :=
  if !r.sort_string.isEmpty then
    [if r.entry_sort then Stage.sort_entries r.sort_string
     else Stage.sort_xacts r.sort_string]
  else []

/-- The revaluation segment (lines 114-115). -/
def revalueSeg (r : Config) : List Stage :=
  if r.show_revalued then
    [Stage.changed_value_xacts r.show_revalued_only]
  else []

/-- The collapse segment (lines 120-121). -/
def collapseSeg (r : Config) : List Stage :=
  if r.show_collapsed then [Stage.collapse_xacts] else []

/-- The plain subtotal segment (lines 134-135). -/
def subtotalSeg (r : Config) : List Stage :=
  if r.show_subtotal then
    [Stage.subtotal_xacts (!r.descend_expr.isEmpty)]
  else []

/-- The day-of-week / by-payee segment (lines 137-140). -/
def dowPayeeSeg (r : Config) : List Stage :=
  if r.days_of_the_week then
    [Stage.dow_xacts (!r.descend_expr.isEmpty)]
  else
    if r.by_payee then
      [Stage.by_payee_xacts (!r.descend_expr.isEmpty)]
    else []

/-- The interval segment (lines 144-148): forced date sort immediately
upstream of the interval stage. -/
def intervalSeg (r : Config) : List Stage :=
  if !r.report_period.isEmpty then
    [Stage.sort_xacts ['d'],
     Stage.interval_xacts r.report_period (!r.descend_expr.isEmpty)]
  else []

/-- The inversion segment (lines 153-154). -/
def invertSeg (r : Config) : List Stage :=
  if r.show_inverted then [Stage.invert_xacts] else []

/-- The related-expansion segment (lines 161-162). -/
def relatedSeg (r : Config) : List Stage :=
  if r.show_related then [Stage.related_xacts r.show_all_related] else []

/-- The general predicate filter segment (lines 166-167). -/
def predSeg (r : Config) : List Stage :=
  if !r.predicate.isEmpty then [Stage.filter_xacts r.predicate] else []

/-- The payee-substitution segment (lines 204-207). -/
def payeeSeg (r : Config) : List Stage :=
  if r.comm_as_payee then [Stage.set_comm_as_payee]
  else
    if r.code_as_payee then [Stage.set_code_as_payee]
    else []

/-! ### Stage-kind predicates and projections used by the claims -/

/-- The expression of a component-decomposition stage, `none` for every
other stage kind; `filterMap componentExpr` extracts, in flow order,
the descend expressions of the decomposition stages of a chain. -/
def componentExpr : Stage → Option (List Char)
  | .component_xacts expr => some expr
  | _ => none

/-- The stage kinds inserted outside the `handle_individual_xacts`
block (`src/report.cc` lines 151-207): inversion, related expansion,
the general predicate filter, and payee substitution. -/
def commonStage : Stage → Bool
  | .invert_xacts => true
  | .related_xacts _ => true
  | .filter_xacts _ => true
  | .set_comm_as_payee => true
  | .set_code_as_payee => true
  | _ => false

/-- Recognizes the running-total stage. -/
def isCalc : Stage → Bool
  | .calc_xacts => true
  | _ => false

/-- Recognizes the plain subtotal stage. -/
def isPlainSubtotal : Stage → Bool
  | .subtotal_xacts _ => true
  | _ => false

/-- Recognizes the day-of-week bucketing stage. -/
def isDow : Stage → Bool
  | .dow_xacts _ => true
  | _ => false

/-- Recognizes the by-payee bucketing stage. -/
def isByPayee : Stage → Bool
  | .by_payee_xacts _ => true
  | _ => false

/-- Recognizes any of the three subtotal-family aggregators (plain
subtotal, day-of-week, by-payee). -/
def isSubtotalFamily (s : Stage) : Bool :=
  isPlainSubtotal s || isDow s || isByPayee s

/-- Number of subtotal-family aggregator stages in a chain. -/
def subtotalFamilyCount (l : List Stage) : Nat :=
  l.countP isSubtotalFamily

/-! ### Stream semantics of the calc and filter stages (for the
order-sensitivity property)

The bodies of `calc_xacts` and `filter_xacts` live in `walk.cc`, which
is not part of the source under examination; only their construction
sites appear in `src/report.cc`.  They are therefore modelled from the
spec (§4.2). -/

/-- A transaction as seen by the calc/filter stages: an amount (one
commodity suffices for the order-sensitivity property) and the
precomputed result of the externally supplied display predicate on this
transaction. -/
structure Xact where
  amount : Int
  passes : Bool
deriving DecidableEq, Repr

/-- Modelled from the spec: `filter_xacts` (§4.2 "Filter — stateless
predicate: evaluates an externally supplied boolean expression per
transaction; drops on false; no buffering").  The C++ class is in
`walk.cc`, absent from src/. -/
def filter_xacts_stream (p : Xact → Bool) (xs : List Xact) : List Xact :=
  xs.filter p

/-- Modelled from the spec: `calc_xacts` (§4.2 "Calc — full-history
accumulator: adds each passing transaction's amount to a running total
and stamps it on the transaction's scratch annotation; totals reflect
exactly the upstream-surviving subsequence seen so far").  The C++
class is in `walk.cc`, absent from src/.  Each output pair is the
transaction together with the running total stamped on it. -/
def calc_xacts_stream : Int → List Xact → List (Xact × Int)
  | _, [] => []
  | total, x :: xs =>
      (x, total + x.amount) :: calc_xacts_stream (total + x.amount) xs

/-- The running total stamped on the last item a stream emits (0 for an
empty stream). -/
def stampedFinalTotal (l : List (Xact × Int)) : Int :=
  match l.getLast? with
  | some q => q.2
  | none => 0

/-- Sum of the amounts of a list of transactions. -/
def sumAmounts (l : List Xact) : Int :=
  (l.map Xact.amount).sum

/-- Composition with calc upstream of the filter (the order
`chain_xact_handlers` actually builds for the display predicate:
`calc_xacts` is constructed after `filter_xacts`, so it receives items
first); the filter then drops stamped items failing the predicate. -/
def calcThenFilter (p : Xact → Bool) (xs : List Xact) : List (Xact × Int) :=
  (calc_xacts_stream 0 xs).filter fun q => p q.1

/-- Composition with the filter upstream of calc: only surviving
transactions are accumulated. -/
def filterThenCalc (p : Xact → Bool) (xs : List Xact) : List (Xact × Int) :=
  calc_xacts_stream 0 (filter_xacts_stream p xs)

/-! ### The expression-layer helpers `abbrev` and `ftime`
(`src/report.cc` lines 281-326) -/

/-- A value of the expression layer (`value_t`), reduced to the shapes
`report_t::abbrev` / `report_t::ftime` touch. -/
inductive Value where
  | nullValue
  | str (s : List Char)
  | intval (n : Int)
  | datetime (d : Nat)
deriving DecidableEq, Repr

/-- Modelled from the spec: the value layer is an external collaborator
(§1); `value_t::as_string` yields the string payload, failing on any
other value kind. -/
def Value.as_string : Value → Except String (List Char)
  | .str s => Except.ok s
  | _ => Except.error "value is not a string"

/-- Modelled from the spec: `value_t::as_long`, failing on non-integer
values. -/
def Value.as_long : Value → Except String Int
  | .intval n => Except.ok n
  | _ => Except.error "value is not an integer"

/-- Modelled from the spec: `value_t::as_datetime`, failing on
non-datetime values. -/
def Value.as_datetime : Value → Except String Nat
  | .datetime d => Except.ok d
  | _ => Except.error "value is not a datetime"

/-- `args[i]` of a `call_scope_t`; the C++ indexing is only reached
after the argument-count guard, so the default is never produced at
the call sites below. -/
def argAt (args : List Value) (i : Nat) : Value :=
  args.getD i Value.nullValue

/-- `report_t::abbrev` (`src/report.cc` lines 281-305): the
argument-count guard runs before anything else and raises the usage
message; afterwards the active code extracts `args[0]` as a string,
takes the session abbreviation length (or `args[3]` when four arguments
were passed) and returns `NULL_VALUE` (the elision itself is disabled
`#if 0` code).  The thrown `std::logic_error` is the `Except.error`
channel: it aborts only this call. -/
def report_abbrev (session_abbrev_length : Int) (args : List Value) :
    Except String Value :=
  if args.length < 2 then
    Except.error "usage: abbrev(STRING, WIDTH [, STYLE, ABBREV_LEN])"
  else
    (argAt args 0).as_string.bind fun _str =>
      (if args.length == 4 then (argAt args 3).as_long
       else Except.ok session_abbrev_length).bind fun _abbrev_len =>
        Except.ok Value.nullValue

/-- `report_t::ftime` (`src/report.cc` lines 307-326): the
argument-count guard runs before anything else and raises the usage
message; afterwards the active code extracts `args[0]` as a datetime,
optionally `args[1]` as the format string, and returns `NULL_VALUE`
(the formatting itself is disabled `#if 0` code). -/
def report_ftime (args : List Value) : Except String Value :=
  if args.length < 1 then
    Except.error "usage: ftime(DATE [, DATE_FORMAT])"
  else
    (argAt args 0).as_datetime.bind fun _date =>
      (if args.length == 2 then (argAt args 1).as_string
       else Except.ok []).bind fun _date_format =>
        Except.ok Value.nullValue

/-! ### Concrete inputs for counterexamples and witnesses -/

/-- The configuration with every option absent/empty. -/
def emptyConfig : Config where
  head_entries := 0
  tail_entries := 0
  display_predicate := []
  descend_expr := []
  reconcile_balance := []
  reconcile_date := []
  secondary_predicate := []
  sort_string := []
  entry_sort := false
  show_revalued := false
  show_revalued_only := false
  show_collapsed := false
  show_subtotal := false
  days_of_the_week := false
  by_payee := false
  report_period := []
  show_inverted := false
  show_related := false
  show_all_related := false
  predicate := []
  comm_as_payee := false
  code_as_payee := false

/-- A concrete `parse_datetime` stand-in for evaluating the builder on
concrete configurations (its values are irrelevant to the claims). -/
def pdt0 : List Char → Nat := fun _ => 0

/-- Only the display predicate set. -/
def cfgDisp : Config := { emptyConfig with display_predicate := ['p'] }

/-- Plain subtotal and day-of-week bucketing both enabled. -/
def cfgSubDow : Config :=
  { emptyConfig with show_subtotal := true, days_of_the_week := true }

/-- Only a report period set. -/
def cfgPeriod : Config := { emptyConfig with report_period := ['m'] }

/-- A two-expression descend string `a;b`. -/
def cfgDescend : Config :=
  { emptyConfig with descend_expr := ['a', ';', 'b'] }

/-- A reconcile balance with no explicit reconcile date. -/
def cfgReconcile : Config :=
  { emptyConfig with reconcile_balance := ['1'] }

/-- Plain subtotal enabled together with a one-expression descend
string. -/
def cfgSubDescend : Config :=
  { emptyConfig with show_subtotal := true, descend_expr := ['a'] }

/-! ### Each insertion site prepends its segment -/

theorem foldr_components (l : List (List Char)) (h : List Stage) :
    List.foldr (fun expr acc => Stage.component_xacts expr :: acc) h l =
      l.map Stage.component_xacts ++ h := by
  induction l with
  | nil => rfl
  | cons x xs ih => simp [ih]

theorem revFoldl_components (l : List (List Char)) (h : List Stage) :
    l.reverse.foldl (fun acc expr => Stage.component_xacts expr :: acc) h =
      l.map Stage.component_xacts ++ h := by
  simp [List.foldl_reverse, foldr_components]

theorem addTrunc_eq (r : Config) (h : List Stage) :
    addTrunc r h = truncSeg r ++ h := by
  unfold addTrunc truncSeg; split <;> simp

theorem addDisplayFilter_eq (r : Config) (h : List Stage) :
    addDisplayFilter r h = dispSeg r ++ h := by
  unfold addDisplayFilter dispSeg; split <;> simp

theorem addComponents_eq (r : Config) (h : List Stage) :
    addComponents r h = compSeg r ++ h := by
  unfold addComponents compSeg
  split <;> simp [List.foldl_reverse, foldr_components]

theorem addReconcile_eq (pdt : List Char → Nat) (now : Nat) (r : Config)
    (h : List Stage) :
    addReconcile pdt now r h = reconcileSeg pdt now r ++ h := by
  unfold addReconcile reconcileSeg; split <;> simp

theorem addSecondaryFilter_eq (r : Config) (h : List Stage) :
    addSecondaryFilter r h = secondarySeg r ++ h := by
  unfold addSecondaryFilter secondarySeg; split <;> simp

theorem addSort_eq (r : Config) (h : List Stage) :
    addSort r h = sortSeg r ++ h := by
  unfold addSort sortSeg; split <;> simp

theorem addRevalue_eq (r : Config) (h : List Stage) :
    addRevalue r h = revalueSeg r ++ h := by
  unfold addRevalue revalueSeg; split <;> simp

theorem addCollapse_eq (r : Config) (h : List Stage) :
    addCollapse r h = collapseSeg r ++ h := by
  unfold addCollapse collapseSeg; split <;> simp

theorem addSubtotal_eq (r : Config) (h : List Stage) :
    addSubtotal r h = subtotalSeg r ++ h := by
  unfold addSubtotal subtotalSeg; split <;> simp

theorem addDowPayee_eq (r : Config) (h : List Stage) :
    addDowPayee r h = dowPayeeSeg r ++ h := by
  unfold addDowPayee dowPayeeSeg
  split
  · simp
  · split <;> simp

theorem addInterval_eq (r : Config) (h : List Stage) :
    addInterval r h = intervalSeg r ++ h := by
  unfold addInterval intervalSeg; split <;> simp

theorem addInvert_eq (r : Config) (h : List Stage) :
    addInvert r h = invertSeg r ++ h := by
  unfold addInvert invertSeg; split <;> simp

theorem addRelated_eq (r : Config) (h : List Stage) :
    addRelated r h = relatedSeg r ++ h := by
  unfold addRelated relatedSeg; split <;> simp

theorem addPredicateFilter_eq (r : Config) (h : List Stage) :
    addPredicateFilter r h = predSeg r ++ h := by
  unfold addPredicateFilter predSeg; split <;> simp

theorem addPayeeSubst_eq (r : Config) (h : List Stage) :
    addPayeeSubst r h = payeeSeg r ++ h := by
  unfold addPayeeSubst payeeSeg
  split
  · simp
  · split <;> simp

/-- The chain built by `chain_xact_handlers`, decomposed as the
concatenation of its segments in flow order (source to sink): the
common (mode-independent) segments first — they are constructed last,
hence nearest the source — then, in individual mode only, the
individual-mode segments, ending with the display filter and the
truncate stage just before the implicit base handler. -/
theorem chain_eq (pdt : List Char → Nat) (now : Nat) (r : Config)
    (b : Bool) :
    chain_xact_handlers pdt now r b =
      payeeSeg r ++ predSeg r ++ relatedSeg r ++ invertSeg r ++
        (if b then
          intervalSeg r ++ dowPayeeSeg r ++ subtotalSeg r ++
            collapseSeg r ++ revalueSeg r ++ sortSeg r ++ secondarySeg r ++
            reconcileSeg pdt now r ++ compSeg r ++
            Stage.calc_xacts :: (dispSeg r ++ truncSeg r)
        else []) := by
  cases b <;>
    simp [chain_xact_handlers, addTrunc_eq, addDisplayFilter_eq,
      addComponents_eq, addReconcile_eq, addSecondaryFilter_eq, addSort_eq,
      addRevalue_eq, addCollapse_eq, addSubtotal_eq, addDowPayee_eq,
      addInterval_eq, addInvert_eq, addRelated_eq, addPredicateFilter_eq,
      addPayeeSubst_eq, List.append_assoc]

/-! ### Membership in the segments -/

@[simp] theorem mem_truncSeg {r : Config} {s : Stage} :
    s ∈ truncSeg r ↔
      (r.head_entries ≠ 0 ∨ r.tail_entries ≠ 0) ∧
        s = Stage.truncate_entries r.head_entries r.tail_entries := by
  unfold truncSeg; split <;> simp_all

@[simp] theorem mem_dispSeg {r : Config} {s : Stage} :
    s ∈ dispSeg r ↔
      r.display_predicate.isEmpty = false ∧
        s = Stage.filter_xacts r.display_predicate := by
  unfold dispSeg; split <;> simp_all

@[simp] theorem mem_compSeg {r : Config} {s : Stage} :
    s ∈ compSeg r ↔
      r.descend_expr.isEmpty = false ∧
        s ∈ (splitSemi r.descend_expr).map Stage.component_xacts := by
  unfold compSeg; split <;> simp_all

@[simp] theorem mem_reconcileSeg {pdt : List Char → Nat} {now : Nat}
    {r : Config} {s : Stage} :
    s ∈ reconcileSeg pdt now r ↔
      r.reconcile_balance.isEmpty = false ∧
        s = Stage.reconcile_xacts r.reconcile_balance
          (if !r.reconcile_date.isEmpty then pdt r.reconcile_date
           else now) := by
  unfold reconcileSeg; split <;> simp_all

@[simp] theorem mem_secondarySeg {r : Config} {s : Stage} :
    s ∈ secondarySeg r ↔
      r.secondary_predicate.isEmpty = false ∧
        s = Stage.filter_xacts r.secondary_predicate := by
  unfold secondarySeg; split <;> simp_all

@[simp] theorem mem_sortSeg {r : Config} {s : Stage} :
    s ∈ sortSeg r ↔
      r.sort_string.isEmpty = false ∧
        ((r.entry_sort = true ∧ s = Stage.sort_entries r.sort_string) ∨
         (r.entry_sort = false ∧ s = Stage.sort_xacts r.sort_string)) := by
  unfold sortSeg
  by_cases h₁ : r.sort_string.isEmpty <;> by_cases h₂ : r.entry_sort <;>
    simp [h₁, h₂]

@[simp] theorem mem_revalueSeg {r : Config} {s : Stage} :
    s ∈ revalueSeg r ↔
      r.show_revalued = true ∧
        s = Stage.changed_value_xacts r.show_revalued_only := by
  unfold revalueSeg; split <;> simp_all

@[simp] theorem mem_collapseSeg {r : Config} {s : Stage} :
    s ∈ collapseSeg r ↔
      r.show_collapsed = true ∧ s = Stage.collapse_xacts := by
  unfold collapseSeg; split <;> simp_all

@[simp] theorem mem_subtotalSeg {r : Config} {s : Stage} :
    s ∈ subtotalSeg r ↔
      r.show_subtotal = true ∧
        s = Stage.subtotal_xacts (!r.descend_expr.isEmpty) := by
  unfold subtotalSeg; split <;> simp_all

@[simp] theorem mem_dowPayeeSeg {r : Config} {s : Stage} :
    s ∈ dowPayeeSeg r ↔
      (r.days_of_the_week = true ∧
        s = Stage.dow_xacts (!r.descend_expr.isEmpty)) ∨
      (r.days_of_the_week = false ∧ r.by_payee = true ∧
        s = Stage.by_payee_xacts (!r.descend_expr.isEmpty)) := by
  unfold dowPayeeSeg
  by_cases h₁ : r.days_of_the_week <;> by_cases h₂ : r.by_payee <;>
    simp [h₁, h₂]

@[simp] theorem mem_intervalSeg {r : Config} {s : Stage} :
    s ∈ intervalSeg r ↔
      r.report_period.isEmpty = false ∧
        (s = Stage.sort_xacts ['d'] ∨
         s = Stage.interval_xacts r.report_period
           (!r.descend_expr.isEmpty)) := by
  unfold intervalSeg; split <;> simp_all

@[simp] theorem mem_invertSeg {r : Config} {s : Stage} :
    s ∈ invertSeg r ↔ r.show_inverted = true ∧ s = Stage.invert_xacts := by
  unfold invertSeg; split <;> simp_all

@[simp] theorem mem_relatedSeg {r : Config} {s : Stage} :
    s ∈ relatedSeg r ↔
      r.show_related = true ∧
        s = Stage.related_xacts r.show_all_related := by
  unfold relatedSeg; split <;> simp_all

@[simp] theorem mem_predSeg {r : Config} {s : Stage} :
    s ∈ predSeg r ↔
      r.predicate.isEmpty = false ∧ s = Stage.filter_xacts r.predicate := by
  unfold predSeg; split <;> simp_all

@[simp] theorem mem_payeeSeg {r : Config} {s : Stage} :
    s ∈ payeeSeg r ↔
      (r.comm_as_payee = true ∧ s = Stage.set_comm_as_payee) ∨
      (r.comm_as_payee = false ∧ r.code_as_payee = true ∧
        s = Stage.set_code_as_payee) := by
  unfold payeeSeg
  by_cases h₁ : r.comm_as_payee <;> by_cases h₂ : r.code_as_payee <;>
    simp [h₁, h₂]

/-! ### Shared helper lemmas about the chain -/

theorem splitSemiAux_ne_nil (cs : List Char) :
    ∀ acc, splitSemiAux cs acc ≠ [] := by
  induction cs with
  | nil => intro acc; simp [splitSemiAux]
  | cons c rest ih =>
      intro acc
      by_cases hc : c = ';' <;> simp [splitSemiAux, hc, ih]

theorem splitSemi_ne_nil (s : List Char) : splitSemi s ≠ [] :=
  splitSemiAux_ne_nil s []

theorem splitSemiAux_concat_semi (cs : List Char) :
    ∀ acc, splitSemiAux (cs ++ [';']) acc = splitSemiAux cs acc ++ [[]] := by
  induction cs with
  | nil => intro acc; simp [splitSemiAux]
  | cons c rest ih =>
      intro acc
      by_cases hc : c = ';' <;> simp [splitSemiAux, hc, ih]

theorem filterMap_componentExpr_comp (l : List (List Char)) :
    List.filterMap (componentExpr ∘ Stage.component_xacts) l = l := by
  induction l with
  | nil => rfl
  | cons x xs ih => simp [componentExpr, Function.comp, ih]

theorem filterMap_componentExpr_map (l : List (List Char)) :
    (l.map Stage.component_xacts).filterMap componentExpr = l := by
  simp [List.filterMap_map, filterMap_componentExpr_comp]

theorem filterMap_comp_truncSeg (r : Config) :
    (truncSeg r).filterMap componentExpr = [] := by
  unfold truncSeg; split <;> simp [componentExpr]

theorem filterMap_comp_dispSeg (r : Config) :
    (dispSeg r).filterMap componentExpr = [] := by
  unfold dispSeg; split <;> simp [componentExpr]

theorem filterMap_comp_compSeg (r : Config) :
    (compSeg r).filterMap componentExpr =
      if r.descend_expr.isEmpty then [] else splitSemi r.descend_expr := by
  unfold compSeg
  split <;> simp_all [filterMap_componentExpr_map, filterMap_componentExpr_comp]

theorem filterMap_comp_reconcileSeg (pdt : List Char → Nat) (now : Nat)
    (r : Config) :
    (reconcileSeg pdt now r).filterMap componentExpr = [] := by
  unfold reconcileSeg; split <;> simp [componentExpr]

theorem filterMap_comp_secondarySeg (r : Config) :
    (secondarySeg r).filterMap componentExpr = [] := by
  unfold secondarySeg; split <;> simp [componentExpr]

theorem filterMap_comp_sortSeg (r : Config) :
    (sortSeg r).filterMap componentExpr = [] := by
  unfold sortSeg
  split
  · split <;> simp [componentExpr]
  · rfl

theorem filterMap_comp_revalueSeg (r : Config) :
    (revalueSeg r).filterMap componentExpr = [] := by
  unfold revalueSeg; split <;> simp [componentExpr]

theorem filterMap_comp_collapseSeg (r : Config) :
    (collapseSeg r).filterMap componentExpr = [] := by
  unfold collapseSeg; split <;> simp [componentExpr]

theorem filterMap_comp_subtotalSeg (r : Config) :
    (subtotalSeg r).filterMap componentExpr = [] := by
  unfold subtotalSeg; split <;> simp [componentExpr]

theorem filterMap_comp_dowPayeeSeg (r : Config) :
    (dowPayeeSeg r).filterMap componentExpr = [] := by
  unfold dowPayeeSeg
  split
  · simp [componentExpr]
  · split <;> simp [componentExpr]

theorem filterMap_comp_intervalSeg (r : Config) :
    (intervalSeg r).filterMap componentExpr = [] := by
  unfold intervalSeg; split <;> simp [componentExpr]

theorem filterMap_comp_invertSeg (r : Config) :
    (invertSeg r).filterMap componentExpr = [] := by
  unfold invertSeg; split <;> simp [componentExpr]

theorem filterMap_comp_relatedSeg (r : Config) :
    (relatedSeg r).filterMap componentExpr = [] := by
  unfold relatedSeg; split <;> simp [componentExpr]

theorem filterMap_comp_predSeg (r : Config) :
    (predSeg r).filterMap componentExpr = [] := by
  unfold predSeg; split <;> simp [componentExpr]

theorem filterMap_comp_payeeSeg (r : Config) :
    (payeeSeg r).filterMap componentExpr = [] := by
  unfold payeeSeg
  split
  · simp [componentExpr]
  · split <;> simp [componentExpr]

/-- In individual mode, the descend expressions of the decomposition
stages of the chain, extracted in flow order, are exactly the
`';'`-split of `descend_expr` (empty split means no stages). -/
theorem chain_filterMap_componentExpr (pdt : List Char → Nat) (now : Nat)
    (r : Config) :
    (chain_xact_handlers pdt now r true).filterMap componentExpr =
      if r.descend_expr.isEmpty then [] else splitSemi r.descend_expr := by
  rw [chain_eq]
  simp only [if_true, List.filterMap_append, List.filterMap_cons,
    filterMap_comp_truncSeg, filterMap_comp_dispSeg, filterMap_comp_compSeg,
    filterMap_comp_reconcileSeg, filterMap_comp_secondarySeg,
    filterMap_comp_sortSeg, filterMap_comp_revalueSeg,
    filterMap_comp_collapseSeg, filterMap_comp_subtotalSeg,
    filterMap_comp_dowPayeeSeg, filterMap_comp_intervalSeg,
    filterMap_comp_invertSeg, filterMap_comp_relatedSeg,
    filterMap_comp_predSeg, filterMap_comp_payeeSeg, componentExpr]
  simp

/-! ### Stage counts per segment -/

theorem countP_truncSeg (q : Stage → Bool) (r : Config) :
    (truncSeg r).countP q =
      if r.head_entries != 0 || r.tail_entries != 0 then
        (if q (Stage.truncate_entries r.head_entries r.tail_entries) then 1
         else 0)
      else 0 := by
  unfold truncSeg; split <;> simp [List.countP_cons]

theorem countP_dispSeg (q : Stage → Bool) (r : Config) :
    (dispSeg r).countP q =
      if !r.display_predicate.isEmpty then
        (if q (Stage.filter_xacts r.display_predicate) then 1 else 0)
      else 0 := by
  unfold dispSeg; split <;> simp [List.countP_cons]

theorem countP_compSeg (q : Stage → Bool) (r : Config) :
    (compSeg r).countP q =
      if !r.descend_expr.isEmpty then
        (splitSemi r.descend_expr).countP (q ∘ Stage.component_xacts)
      else 0 := by
  unfold compSeg; split <;> simp [List.countP_map]

theorem countP_reconcileSeg (q : Stage → Bool) (pdt : List Char → Nat)
    (now : Nat) (r : Config) :
    (reconcileSeg pdt now r).countP q =
      if !r.reconcile_balance.isEmpty then
        (if q (Stage.reconcile_xacts r.reconcile_balance
            (if !r.reconcile_date.isEmpty then pdt r.reconcile_date
             else now)) then 1
         else 0)
      else 0 := by
  unfold reconcileSeg; split <;> simp [List.countP_cons]

theorem countP_secondarySeg (q : Stage → Bool) (r : Config) :
    (secondarySeg r).countP q =
      if !r.secondary_predicate.isEmpty then
        (if q (Stage.filter_xacts r.secondary_predicate) then 1 else 0)
      else 0 := by
  unfold secondarySeg; split <;> simp [List.countP_cons]

theorem countP_sortSeg (q : Stage → Bool) (r : Config) :
    (sortSeg r).countP q =
      if !r.sort_string.isEmpty then
        (if r.entry_sort then
          (if q (Stage.sort_entries r.sort_string) then 1 else 0)
         else (if q (Stage.sort_xacts r.sort_string) then 1 else 0))
      else 0 := by
  unfold sortSeg
  split
  · split <;> simp [List.countP_cons]
  · rfl

theorem countP_revalueSeg (q : Stage → Bool) (r : Config) :
    (revalueSeg r).countP q =
      if r.show_revalued then
        (if q (Stage.changed_value_xacts r.show_revalued_only) then 1 else 0)
      else 0 := by
  unfold revalueSeg; split <;> simp [List.countP_cons]

theorem countP_collapseSeg (q : Stage → Bool) (r : Config) :
    (collapseSeg r).countP q =
      if r.show_collapsed then (if q Stage.collapse_xacts then 1 else 0)
      else 0 := by
  unfold collapseSeg; split <;> simp [List.countP_cons]

theorem countP_subtotalSeg (q : Stage → Bool) (r : Config) :
    (subtotalSeg r).countP q =
      if r.show_subtotal then
        (if q (Stage.subtotal_xacts (!r.descend_expr.isEmpty)) then 1 else 0)
      else 0 := by
  unfold subtotalSeg; split <;> simp [List.countP_cons]

theorem countP_dowPayeeSeg (q : Stage → Bool) (r : Config) :
    (dowPayeeSeg r).countP q =
      if r.days_of_the_week then
        (if q (Stage.dow_xacts (!r.descend_expr.isEmpty)) then 1 else 0)
      else
        if r.by_payee then
          (if q (Stage.by_payee_xacts (!r.descend_expr.isEmpty)) then 1
           else 0)
        else 0 := by
  unfold dowPayeeSeg
  split
  · simp [List.countP_cons]
  · split <;> simp [List.countP_cons]

theorem countP_intervalSeg (q : Stage → Bool) (r : Config) :
    (intervalSeg r).countP q =
      if !r.report_period.isEmpty then
        ((if q (Stage.interval_xacts r.report_period
            (!r.descend_expr.isEmpty)) then 1
          else 0) +
         (if q (Stage.sort_xacts ['d']) then 1 else 0))
      else 0 := by
  unfold intervalSeg; split <;> simp [List.countP_cons]

theorem countP_invertSeg (q : Stage → Bool) (r : Config) :
    (invertSeg r).countP q =
      if r.show_inverted then (if q Stage.invert_xacts then 1 else 0)
      else 0 := by
  unfold invertSeg; split <;> simp [List.countP_cons]

theorem countP_relatedSeg (q : Stage → Bool) (r : Config) :
    (relatedSeg r).countP q =
      if r.show_related then
        (if q (Stage.related_xacts r.show_all_related) then 1 else 0)
      else 0 := by
  unfold relatedSeg; split <;> simp [List.countP_cons]

theorem countP_predSeg (q : Stage → Bool) (r : Config) :
    (predSeg r).countP q =
      if !r.predicate.isEmpty then
        (if q (Stage.filter_xacts r.predicate) then 1 else 0)
      else 0 := by
  unfold predSeg; split <;> simp [List.countP_cons]

theorem countP_payeeSeg (q : Stage → Bool) (r : Config) :
    (payeeSeg r).countP q =
      if r.comm_as_payee then (if q Stage.set_comm_as_payee then 1 else 0)
      else
        if r.code_as_payee then
          (if q Stage.set_code_as_payee then 1 else 0)
        else 0 := by
  unfold payeeSeg
  split
  · simp [List.countP_cons]
  · split <;> simp [List.countP_cons]

theorem countP_component_false (q : Stage → Bool)
    (hq : ∀ e, q (Stage.component_xacts e) = false)
    (l : List (List Char)) :
    List.countP (q ∘ Stage.component_xacts) l = 0 := by
  induction l with
  | nil => rfl
  | cons x xs ih => simp [List.countP_cons, Function.comp, hq, ih]

/-! ### The mode-independent segments hold only common stage kinds -/

theorem allCommon_invertSeg (r : Config) :
    (invertSeg r).all commonStage = true := by
  unfold invertSeg; split <;> rfl

theorem allCommon_relatedSeg (r : Config) :
    (relatedSeg r).all commonStage = true := by
  unfold relatedSeg; split <;> rfl

theorem allCommon_predSeg (r : Config) :
    (predSeg r).all commonStage = true := by
  unfold predSeg; split <;> rfl

theorem allCommon_payeeSeg (r : Config) :
    (payeeSeg r).all commonStage = true := by
  unfold payeeSeg
  split
  · rfl
  · split <;> rfl

/-! ### Lemmas about the calc/filter stream semantics -/

theorem calc_stream_append (t : Int) (l₁ l₂ : List Xact) :
    calc_xacts_stream t (l₁ ++ l₂) =
      calc_xacts_stream t l₁ ++
        calc_xacts_stream (t + sumAmounts l₁) l₂ := by
  induction l₁ generalizing t with
  | nil => simp [calc_xacts_stream, sumAmounts]
  | cons x xs ih =>
      simp [calc_xacts_stream, sumAmounts, ih, Int.add_assoc]

theorem calc_stream_filter_none (p : Xact → Bool) :
    ∀ (zs : List Xact), (∀ w ∈ zs, p w = false) → ∀ t : Int,
      (calc_xacts_stream t zs).filter (fun q => p q.1) = []
  | [], _, _ => rfl
  | x :: xs, h, t => by
      have hx : p x = false := h x (List.mem_cons_self x xs)
      simp only [calc_xacts_stream, List.filter_cons, hx]
      simpa using
        calc_stream_filter_none p xs
          (fun w hw => h w (List.mem_cons_of_mem x hw)) (t + x.amount)

theorem filter_false_nil (p : Xact → Bool) :
    ∀ (zs : List Xact), (∀ w ∈ zs, p w = false) → zs.filter p = []
  | [], _ => rfl
  | x :: xs, h => by
      simp only [List.filter_cons, h x (List.mem_cons_self x xs)]
      exact filter_false_nil p xs
        (fun w hw => h w (List.mem_cons_of_mem x hw))

theorem sumAmounts_filter_split (p : Xact → Bool) (l : List Xact) :
    sumAmounts l =
      sumAmounts (l.filter p) + sumAmounts (l.filter fun w => !p w) := by
  induction l with
  | nil => rfl
  | cons x xs ih =>
      by_cases hp : p x <;>
        simp [sumAmounts, List.filter_cons, hp] at ih ⊢ <;> omega

theorem stampedFinalTotal_concat (l : List (Xact × Int)) (e : Xact × Int) :
    stampedFinalTotal (l ++ [e]) = e.2 := by
  simp [stampedFinalTotal, List.getLast?_concat]

/-! ### The claims -/

/-- C1, counterexample: with individual mode and only the display
predicate set, the chain in flow order is `[calc_xacts, filter_xacts]`
— the running-total stage receives each item strictly BEFORE the
primary display filter (its index in flow order is smaller), because
`calc_xacts` is constructed after (hence wraps) the display filter.
This refutes the claim that items pass the display filter before the
running-total stage. -/
theorem calc_before_display_filter_cex :
    chain_xact_handlers pdt0 0 cfgDisp true =
      [Stage.calc_xacts, Stage.filter_xacts ['p']] ∧
    (chain_xact_handlers pdt0 0 cfgDisp true).indexOf Stage.calc_xacts <
      (chain_xact_handlers pdt0 0 cfgDisp true).indexOf
        (Stage.filter_xacts ['p']) := by
  decide

/-- C1, amended: in the chain built with individual mode and a
non-empty display predicate, the running-total (calc) stage is
immediately upstream of the primary display filter in flow order: every
transaction is added to the running total before the display predicate
is applied (so display-filtered transactions are still included in the
running total). -/
theorem calc_upstream_of_display_filter (pdt : List Char → Nat) (now : Nat)
    (r : Config) (hdisp : (!r.display_predicate.isEmpty) = true) :
    ∃ A B, chain_xact_handlers pdt now r true =
      A ++ Stage.calc_xacts ::
        Stage.filter_xacts r.display_predicate :: B := by
  refine ⟨payeeSeg r ++ predSeg r ++ relatedSeg r ++ invertSeg r ++
    intervalSeg r ++ dowPayeeSeg r ++ subtotalSeg r ++ collapseSeg r ++
    revalueSeg r ++ sortSeg r ++ secondarySeg r ++ reconcileSeg pdt now r ++
    compSeg r, truncSeg r, ?_⟩
  rw [chain_eq]
  simp [dispSeg, hdisp, List.append_assoc]

/-- C1, witness for `calc_upstream_of_display_filter` at the concrete
configuration with display predicate `"p"`. -/
theorem calc_upstream_of_display_filter_witness :
    ∃ A B, chain_xact_handlers pdt0 0 cfgDisp true =
      A ++ Stage.calc_xacts ::
        Stage.filter_xacts cfgDisp.display_predicate :: B :=
  calc_upstream_of_display_filter pdt0 0 cfgDisp (by decide)

/-- C2, counterexample: with `show_subtotal` and `days_of_the_week`
both set, the chain contains TWO subtotal-family aggregator stages
(`dow_xacts` and `subtotal_xacts`), because the `show_subtotal` branch
(line 134) is an independent `if`, not part of the `if`/`else if`
chain of lines 137-140.  This refutes "at most one subtotal-family
aggregator stage is inserted". -/
theorem subtotal_family_two_stages_cex :
    chain_xact_handlers pdt0 0 cfgSubDow true =
      [Stage.dow_xacts false, Stage.subtotal_xacts false,
        Stage.calc_xacts] ∧
    subtotalFamilyCount (chain_xact_handlers pdt0 0 cfgSubDow true) = 2 := by
  decide

/-- C2, amended: the plain subtotal stage is inserted whenever
`show_subtotal` is set (individual mode), independently of the
bucketing choice; among day-of-week and by-payee bucketing at most one
is inserted, day-of-week taking precedence; hence the chain holds up to
two subtotal-family stages, and at most one when `show_subtotal` is
unset. -/
theorem subtotal_family_counts (pdt : List Char → Nat) (now : Nat)
    (r : Config) (b : Bool) :
    subtotalFamilyCount (chain_xact_handlers pdt now r b) =
      ((if b && r.show_subtotal then 1 else 0) +
        (if b && (r.days_of_the_week || r.by_payee) then 1 else 0)) ∧
    (chain_xact_handlers pdt now r b).countP isDow =
      (if b && r.days_of_the_week then 1 else 0) ∧
    (chain_xact_handlers pdt now r b).countP isByPayee =
      (if b && (!r.days_of_the_week && r.by_payee) then 1 else 0) ∧
    (chain_xact_handlers pdt now r b).countP isPlainSubtotal =
      (if b && r.show_subtotal then 1 else 0) := by
  refine ⟨?_, ?_, ?_, ?_⟩ <;>
  · cases b <;>
      by_cases hd : r.days_of_the_week <;> by_cases hp : r.by_payee <;>
      by_cases hs : r.show_subtotal <;>
        simp [chain_eq, subtotalFamilyCount, List.countP_append,
          countP_truncSeg, countP_dispSeg, countP_compSeg,
          countP_reconcileSeg, countP_secondarySeg, countP_sortSeg,
          countP_revalueSeg, countP_collapseSeg, countP_subtotalSeg,
          countP_dowPayeeSeg, countP_intervalSeg, countP_invertSeg,
          countP_relatedSeg, countP_predSeg, countP_payeeSeg,
          countP_component_false, List.countP_cons, isSubtotalFamily,
          isPlainSubtotal, isDow, isByPayee, hd, hp, hs]

/-- C3, counterexample: with only a report period set, the chain in
flow order is `[sort_xacts "d", interval_xacts, calc_xacts]`: the
forced date sort has the SMALLER flow index, i.e. it is upstream of the
interval stage and reorders the items the interval stage receives, not
the items it emits.  This refutes the claim that the date sort is
immediately downstream of the interval stage. -/
theorem interval_sort_order_cex :
    chain_xact_handlers pdt0 0 cfgPeriod true =
      [Stage.sort_xacts ['d'], Stage.interval_xacts ['m'] false,
        Stage.calc_xacts] ∧
    (chain_xact_handlers pdt0 0 cfgPeriod true).indexOf
        (Stage.sort_xacts ['d']) <
      (chain_xact_handlers pdt0 0 cfgPeriod true).indexOf
        (Stage.interval_xacts ['m'] false) := by
  decide

/-- C3, amended: when `report_period` is non-empty and individual mode
is on, an interval bucketing stage is inserted and the forced date sort
is immediately UPSTREAM of it in flow order (the sort stage is
constructed last, wrapping the interval stage), so it orders the items
the interval stage receives. -/
theorem date_sort_upstream_of_interval (pdt : List Char → Nat) (now : Nat)
    (r : Config) (hper : (!r.report_period.isEmpty) = true) :
    ∃ A B, chain_xact_handlers pdt now r true =
      A ++ Stage.sort_xacts ['d'] ::
        Stage.interval_xacts r.report_period
          (!r.descend_expr.isEmpty) :: B := by
  refine ⟨payeeSeg r ++ predSeg r ++ relatedSeg r ++ invertSeg r,
    dowPayeeSeg r ++ subtotalSeg r ++ collapseSeg r ++ revalueSeg r ++
      sortSeg r ++ secondarySeg r ++ reconcileSeg pdt now r ++ compSeg r ++
      Stage.calc_xacts :: (dispSeg r ++ truncSeg r), ?_⟩
  rw [chain_eq]
  simp [intervalSeg, hper, List.append_assoc]

/-- C3, witness for `date_sort_upstream_of_interval` at the concrete
configuration with report period `"m"`. -/
theorem date_sort_upstream_of_interval_witness :
    ∃ A B, chain_xact_handlers pdt0 0 cfgPeriod true =
      A ++ Stage.sort_xacts ['d'] ::
        Stage.interval_xacts cfgPeriod.report_period
          (!cfgPeriod.descend_expr.isEmpty) :: B :=
  date_sort_upstream_of_interval pdt0 0 cfgPeriod (by decide)

/-- C4: for a non-empty `descend_expr`, the component-decomposition
stages of the chain, read in flow order (head of the list = nearest the
source, seeing each item first), carry exactly the `';'`-split
segments of `descend_expr` in the order they were written: one stage
per segment, the first written expression nearest the source.  (The
builder iterates the split list in reverse while wrapping, which yields
exactly the written order in flow direction.) -/
theorem component_stages_in_written_order (pdt : List Char → Nat)
    (now : Nat) (r : Config) (hd : (!r.descend_expr.isEmpty) = true) :
    (chain_xact_handlers pdt now r true).filterMap componentExpr =
      splitSemi r.descend_expr := by
  rw [chain_filterMap_componentExpr]
  simp_all

/-- C4, witness for `component_stages_in_written_order` at the concrete
descend expression `"a;b"`: the extracted stage expressions are
`["a", "b"]`. -/
theorem component_stages_in_written_order_witness :
    (chain_xact_handlers pdt0 0 cfgDescend true).filterMap componentExpr =
      splitSemi cfgDescend.descend_expr :=
  component_stages_in_written_order pdt0 0 cfgDescend (by decide)

/-- C5, counterexample: on the stream `[(amount 1, passes), (amount 5,
fails)]` the filter removes a transaction with nonzero amount (amount
5), yet the two compositions stamp the SAME final running total (1):
the removed transaction comes after the last passing one, so it never
affects the total stamped on a surviving item.  This refutes "for
EVERY input stream in which the filter removes at least one transaction
with nonzero amount, the final stamped totals differ". -/
theorem calc_filter_commute_cex :
    (∃ x ∈ ([⟨1, true⟩, ⟨5, false⟩] : List Xact),
        x.passes = false ∧ x.amount ≠ 0) ∧
    stampedFinalTotal
        (calcThenFilter Xact.passes [⟨1, true⟩, ⟨5, false⟩]) =
      stampedFinalTotal
        (filterThenCalc Xact.passes [⟨1, true⟩, ⟨5, false⟩]) := by
  decide

/-- C5, amended: composing calc upstream of the filter differs from
composing the filter upstream of calc exactly where removed items
precede surviving ones: for every stream `ys ++ z :: zs` whose last
passing transaction is `z` (everything in `zs` fails the predicate),
if the transactions of `ys` removed by the filter have amounts summing
to a nonzero value, the two compositions stamp different final running
totals.  (Modelled from the spec: the calc/filter stage bodies live in
`walk.cc`, outside src/.) -/
theorem calc_filter_final_totals_differ (p : Xact → Bool)
    (ys zs : List Xact) (z : Xact) (hz : p z = true)
    (hzs : ∀ w ∈ zs, p w = false)
    (hsum : sumAmounts (ys.filter fun w => !p w) ≠ 0) :
    stampedFinalTotal (calcThenFilter p (ys ++ z :: zs)) ≠
      stampedFinalTotal (filterThenCalc p (ys ++ z :: zs)) := by
  have h₁ : stampedFinalTotal (calcThenFilter p (ys ++ z :: zs)) =
      sumAmounts ys + z.amount := by
    unfold calcThenFilter
    rw [calc_stream_append, List.filter_append]
    simp [calc_xacts_stream, List.filter_cons, hz,
      calc_stream_filter_none p zs hzs, stampedFinalTotal_concat]
  have h₂ : stampedFinalTotal (filterThenCalc p (ys ++ z :: zs)) =
      sumAmounts (ys.filter p) + z.amount := by
    unfold filterThenCalc filter_xacts_stream
    rw [List.filter_append]
    have hfz : (z :: zs).filter p = [z] := by
      simp [List.filter_cons, hz, filter_false_nil p zs hzs]
    rw [hfz, calc_stream_append]
    simp [calc_xacts_stream, stampedFinalTotal_concat]
  rw [h₁, h₂]
  have h₃ := sumAmounts_filter_split p ys
  omega

/-- C5, witness for `calc_filter_final_totals_differ`: the stream
`[(amount 5, fails), (amount 1, passes)]`, where the removed
transaction precedes the last passing one, stamps final total 6 with
calc upstream but 1 with the filter upstream. -/
theorem calc_filter_final_totals_differ_witness :
    stampedFinalTotal
        (calcThenFilter Xact.passes [⟨5, false⟩, ⟨1, true⟩]) ≠
      stampedFinalTotal
        (filterThenCalc Xact.passes [⟨5, false⟩, ⟨1, true⟩]) :=
  calc_filter_final_totals_differ Xact.passes [⟨5, false⟩] [] ⟨1, true⟩
    (by decide) (by simp) (by decide)

/-- C6: splitting `descend_expr` on `';'` yields one decomposition
stage per segment — the chain's decomposition stages carry exactly
`splitSemi descend_expr` when the string is non-empty and are absent
when it is empty — and trailing empty segments are preserved: a string
ending in `';'` splits into the split of its prefix followed by a
literal empty-string expression. -/
theorem descend_split_stages (pdt : List Char → Nat) (now : Nat)
    (r : Config) (s : List Char) :
    ((chain_xact_handlers pdt now r true).filterMap componentExpr =
      if r.descend_expr.isEmpty then [] else splitSemi r.descend_expr) ∧
    splitSemi (s ++ [';']) = splitSemi s ++ [[]] :=
  ⟨chain_filterMap_componentExpr pdt now r, by
    simp [splitSemi, splitSemiAux_concat_semi]⟩

/-- C7: in aggregate mode (`individual_mode = false`) the chain
consists exactly of the payee-substitution, general-predicate filter,
related-expansion and inversion segments (each present iff its option
is set, exactly as in individual mode); the individual-mode chain is
that same common prefix followed by the individual-only stages
(truncate, display filter, calc, decomposition, reconcile, secondary
filter, sort, revalue, collapse, subtotal family, interval); every
stage of the aggregate-mode chain is of a common kind; and the calc
stage is present in individual mode. -/
theorem mode_stage_separation (pdt : List Char → Nat) (now : Nat)
    (r : Config) :
    chain_xact_handlers pdt now r false =
      payeeSeg r ++ predSeg r ++ relatedSeg r ++ invertSeg r ∧
    chain_xact_handlers pdt now r true =
      chain_xact_handlers pdt now r false ++
        (intervalSeg r ++ dowPayeeSeg r ++ subtotalSeg r ++ collapseSeg r ++
          revalueSeg r ++ sortSeg r ++ secondarySeg r ++
          reconcileSeg pdt now r ++ compSeg r ++
          Stage.calc_xacts :: (dispSeg r ++ truncSeg r)) ∧
    (chain_xact_handlers pdt now r false).all commonStage = true ∧
    Stage.calc_xacts ∈ chain_xact_handlers pdt now r true := by
  refine ⟨?_, ?_, ?_, ?_⟩
  · rw [chain_eq]; simp
  · rw [chain_eq, chain_eq]; simp [List.append_assoc]
  · rw [chain_eq]
    simp [List.all_append, allCommon_invertSeg, allCommon_relatedSeg,
      allCommon_predSeg, allCommon_payeeSeg]
  · rw [chain_eq]; simp

/-- C8, counterexample: with a reconcile balance set and no explicit
reconcile date, two invocations with the identical configuration, base
handler and mode but different ambient current moments produce chains
whose reconcile stages carry different cutoffs — the builder reads
`current_moment` (line 90), which is not part of the configuration.
This refutes "depending on nothing else". -/
theorem chain_depends_on_current_moment_cex :
    chain_xact_handlers pdt0 0 cfgReconcile true =
      [Stage.reconcile_xacts ['1'] 0, Stage.calc_xacts] ∧
    chain_xact_handlers pdt0 1 cfgReconcile true =
      [Stage.reconcile_xacts ['1'] 1, Stage.calc_xacts] ∧
    decide (chain_xact_handlers pdt0 0 cfgReconcile true =
      chain_xact_handlers pdt0 1 cfgReconcile true) = false := by
  decide

/-- C8, amended: chain construction is a pure function of the
configuration, the terminal consumer, the mode, the external
`parse_datetime`, AND the ambient current moment; the current moment is
only read as the default reconcile cutoff, so whenever the reconcile
balance is unset or an explicit reconcile date is given, the chain is
independent of the current moment. -/
theorem chain_deterministic_given_moment (pdt : List Char → Nat)
    (r : Config) (b : Bool) (now₁ now₂ : Nat)
    (h : r.reconcile_balance.isEmpty = true ∨
      r.reconcile_date.isEmpty = false) :
    chain_xact_handlers pdt now₁ r b = chain_xact_handlers pdt now₂ r b := by
  have hrec : reconcileSeg pdt now₁ r = reconcileSeg pdt now₂ r := by
    unfold reconcileSeg
    rcases h with h | h <;> simp [h]
  rw [chain_eq, chain_eq, hrec]

/-- C8, witness for `chain_deterministic_given_moment` at the empty
configuration (no reconcile balance) and moments 0 and 5. -/
theorem chain_deterministic_given_moment_witness :
    chain_xact_handlers pdt0 0 emptyConfig true =
      chain_xact_handlers pdt0 5 emptyConfig true :=
  chain_deterministic_given_moment pdt0 emptyConfig true 0 5 (by decide)

/-- C9: `abbrev` raises exactly
"usage: abbrev(STRING, WIDTH [, STYLE, ABBREV_LEN])" whenever called
with fewer than 2 arguments and `ftime` raises exactly
"usage: ftime(DATE [, DATE_FORMAT])" whenever called with fewer than 1
argument: the argument-count guard is the first statement of each call,
so the error precedes any other work, and the `Except` error channel
(the thrown `logic_error`) aborts only that call. -/
theorem helper_usage_errors :
    (∀ (session_abbrev_length : Int) (args : List Value),
      args.length < 2 →
        report_abbrev session_abbrev_length args =
          Except.error "usage: abbrev(STRING, WIDTH [, STYLE, ABBREV_LEN])") ∧
    (∀ args : List Value, args.length < 1 →
      report_ftime args =
        Except.error "usage: ftime(DATE [, DATE_FORMAT])") := by
  constructor
  · intro len args h
    unfold report_abbrev
    rw [if_pos h]
  · intro args h
    unfold report_ftime
    rw [if_pos h]

/-- C9, witness for `helper_usage_errors`: zero-argument calls of both
helpers produce the usage errors. -/
theorem helper_usage_errors_witness :
    report_abbrev 0 [] =
      Except.error "usage: abbrev(STRING, WIDTH [, STYLE, ABBREV_LEN])" ∧
    report_ftime [] =
      Except.error "usage: ftime(DATE [, DATE_FORMAT])" :=
  ⟨helper_usage_errors.1 0 [] (by decide),
   helper_usage_errors.2 [] (by decide)⟩

/-- C10: every subtotal-family or interval stage of any chain carries
`remember_components = true` exactly when `descend_expr` is non-empty;
and `descend_expr` is non-empty exactly when at least one
component-decomposition stage is present in the (individual-mode)
chain. -/
theorem remember_components_iff_descend (pdt : List Char → Nat)
    (now : Nat) (r : Config) :
    (∀ (b f : Bool), Stage.subtotal_xacts f ∈
        chain_xact_handlers pdt now r b →
      f = !r.descend_expr.isEmpty) ∧
    (∀ (b f : Bool), Stage.dow_xacts f ∈ chain_xact_handlers pdt now r b →
      f = !r.descend_expr.isEmpty) ∧
    (∀ (b f : Bool), Stage.by_payee_xacts f ∈
        chain_xact_handlers pdt now r b →
      f = !r.descend_expr.isEmpty) ∧
    (∀ (b : Bool) (per : List Char) (f : Bool),
      Stage.interval_xacts per f ∈ chain_xact_handlers pdt now r b →
        f = !r.descend_expr.isEmpty) ∧
    ((!r.descend_expr.isEmpty) = true ↔
      ∃ e, Stage.component_xacts e ∈ chain_xact_handlers pdt now r true) := by
  refine ⟨?_, ?_, ?_, ?_, ?_⟩
  · intro b f hf
    cases b
    · rw [chain_eq] at hf; simp at hf
    · rw [chain_eq] at hf; simp at hf
      exact hf.2
  · intro b f hf
    cases b
    · rw [chain_eq] at hf; simp at hf
    · rw [chain_eq] at hf; simp at hf
      exact hf.2
  · intro b f hf
    cases b
    · rw [chain_eq] at hf; simp at hf
    · rw [chain_eq] at hf; simp at hf
      exact hf.2.2
  · intro b per f hf
    cases b
    · rw [chain_eq] at hf; simp at hf
    · rw [chain_eq] at hf; simp at hf
      exact hf.2.2
  · constructor
    · intro h
      have h' : r.descend_expr.isEmpty = false := by simpa using h
      obtain ⟨e, es, heq⟩ :=
        List.exists_cons_of_ne_nil (splitSemi_ne_nil r.descend_expr)
      refine ⟨e, ?_⟩
      rw [chain_eq]
      simp [h', heq]
    · rintro ⟨e, he⟩
      rw [chain_eq] at he; simp at he
      simp [he.1]

/-- C10, witness for `remember_components_iff_descend`: with
`show_subtotal` set and descend expression `"a"`, the chain's subtotal
stage carries flag `true`, which equals `!descend_expr.isEmpty`. -/
theorem remember_components_iff_descend_witness :
    true = !cfgSubDescend.descend_expr.isEmpty :=
  (remember_components_iff_descend pdt0 0 cfgSubDescend).1 true true
    (by decide)

end Report
